import Mathlib

/-!
Verification of `go-dht-prometheus` (`src/main.go`) against its
natural-language specification.

The program is a single Go file: a sampler loop `recordMetrics` reading a
DHT temperature/humidity sensor and publishing five Prometheus gauges, and
a `main` wiring an HTTP metrics server with signal-driven graceful
shutdown.  We embed the relevant parts shallowly:

* floating-point values are modelled as real numbers (`math.Exp` becomes
  `Real.exp`);
* wall-clock instants are modelled by their Unix seconds (`ℤ`), which is
  all the code uses of them (`time.Now().Unix()`);
* the sensor collaborator `dht.ReadDHTxxWithRetry` is an opaque input: a
  `ReadResult` carrying the returned numeric values together with the
  error flag (Go returns the numeric values in every case);
* the process lifecycle of `main` is a small transition system.
-/

namespace DhtProm

/-- Result of one call to `dht.ReadDHTxxWithRetry` (main.go:67-72): Go
returns `(temperature, humidity, retried, err)`; the numeric values are
present whether or not `err` is nil. -/
structure ReadResult where
  temperature : ℝ
  humidity : ℝ
  retried : ℕ
  isError : Bool

/-- The five gauges of main.go:21-47, as value cells (what `Set` writes). -/
structure GaugeState where
  lastTemperature : ℝ
  lastHumidity : ℝ
  lastVaporPressureDeficit : ℝ
  lastSuccessfulMeasurementSeconds : ℝ
  lastMeasurementRetries : ℝ

/-- Mutable state of the sampler loop: the gauges plus the local variable
`last_measurement_time` (main.go:65), kept as Unix seconds. -/
structure SamplerState where
  gauges : GaugeState
  lastMeasurementTime : ℤ

/-- Denominator of the saturation-vapor-pressure exponent (main.go:79):
`temperature64 + 237.3`. -/
def esDenom (t : ℝ) : ℝ := t + 237.3

/-- Saturation vapor pressure, main.go:79:
`es := 0.6108 * math.Exp(17.27*temperature64/(temperature64+237.3))`. -/
noncomputable def es (t : ℝ) : ℝ := 0.6108 * Real.exp (17.27 * t / esDenom t)

/-- Actual vapor pressure, main.go:80: `ea := humidity64 / 100 * es`. -/
noncomputable def ea (t h : ℝ) : ℝ := h / 100 * es t

/-- Vapor pressure deficit as the code computes it, main.go:83:
`vpd := (ea - es) * -1`. -/
noncomputable def vpd (t h : ℝ) : ℝ := (ea t h - es t) * -1

/-- Modelled from the spec: the spec's formula `vpd = es - ea` (§4.1),
stated for comparison with the implemented `vpd`. -/
noncomputable def vpdSpec (t h : ℝ) : ℝ := es t - ea t h

/-- One iteration of the `for` loop in `recordMetrics` (main.go:66-96)
after the sensor read returned `r`, at wall-clock time `now` (Unix
seconds).  The error branch (main.go:73-75) only logs, so the same gauge
writes (main.go:88-93) happen unconditionally:
`last_successful_measurement_seconds` is set to `now - last_measurement_time`,
`last_measurement_time` is reset to `now`, and temperature, humidity,
retries and VPD gauges are set from the returned values. -/
noncomputable def recordMetricsStep (s : SamplerState) (r : ReadResult) (now : ℤ) :
    SamplerState :=
  { gauges :=
      { lastSuccessfulMeasurementSeconds := ((now - s.lastMeasurementTime : ℤ) : ℝ)
        lastTemperature := r.temperature
        lastHumidity := r.humidity
        lastMeasurementRetries := (r.retried : ℝ)
        lastVaporPressureDeficit := vpd r.temperature r.humidity }
    lastMeasurementTime := now }

/-- Observable effect of one loop round: whether the error branch logged,
the successor state, and the sleep the round ends with
(`time.Sleep(opts.ReadSeconds)`, main.go:95). -/
structure RoundEffect where
  errorLogged : Bool
  newState : SamplerState
  sleepSeconds : ℤ

/-- One full round of `recordMetrics` with sample interval `interval`
(= `opts.ReadSeconds`): log on error, update every gauge, sleep. -/
noncomputable def recordMetricsRound (interval : ℤ) (s : SamplerState)
    (r : ReadResult) (now : ℤ) : RoundEffect :=
  { errorLogged := r.isError
    newState := recordMetricsStep s r now
    sleepSeconds := interval }

/-- The sampler loop run for `n` rounds from initial state `init`, where
`reads k` is the sensor result of round `k` and `times k` the wall clock
at round `k`.  The loop body is `recordMetricsStep`; it is applied at
every round, there is no exit. -/
noncomputable def recordMetricsRun (init : SamplerState)
    (reads : ℕ → ReadResult) (times : ℕ → ℤ) : ℕ → SamplerState
  | 0 => init
  | n + 1 => recordMetricsStep (recordMetricsRun init reads times n) (reads n) (times n)

/-! ### Process lifecycle (`main`, main.go:99-134) -/

/-- POSIX signals as far as `main` distinguishes them:
`signal.Notify(sigChan, syscall.SIGINT, syscall.SIGTERM)` (main.go:125). -/
inductive Sig
  | SIGINT
  | SIGTERM
  | otherSig
deriving DecidableEq

/-- Events driving the process lifecycle of `main`: startup completes
(goroutines launched, main.go:113-122), an OS signal is delivered, or
graceful shutdown completes (connections drained or the 10 s grace
context expires, main.go:128-133). -/
inductive Event
  | finishStartup
  | signal (s : Sig)
  | drained
deriving DecidableEq

/-- Lifecycle phases named by the spec:
`Starting → Running → ShuttingDown → Stopped`. -/
inductive Phase
  | Starting
  | Running
  | ShuttingDown
  | Stopped
deriving DecidableEq

/-- The signals subscribed on `sigChan` (main.go:125). -/
def notifiedSignals : List Sig := [Sig.SIGINT, Sig.SIGTERM]

/-- Grace window for `server.Shutdown`:
`context.WithTimeout(context.Background(), 10*time.Second)` (main.go:128). -/
def shutdownGraceSeconds : ℕ := 10

/-- Lifecycle transition function of `main`: once running, `main` blocks
on `<-sigChan` (main.go:126), which only notified signals reach, and then
calls `server.Shutdown`; any other event leaves the phase unchanged. -/
def lifecycleStep : Phase → Event → Phase
  | Phase.Starting, Event.finishStartup => Phase.Running
  | Phase.Running, Event.signal s =>
      if s ∈ notifiedSignals then Phase.ShuttingDown else Phase.Running
  | Phase.ShuttingDown, Event.drained => Phase.Stopped
  | p, _ => p

/-- Phase reached from `Starting` after a sequence of events. -/
def lifecycleRun (evs : List Event) : Phase :=
  evs.foldl lifecycleStep Phase.Starting

/-! ### Exit codes of `main` (main.go:99-134) -/

/-- Outcome of `flags.Parse(&opts)` (main.go:101). -/
inductive ParseResult
  | ok
  | fail
deriving DecidableEq

/-- Outcome of `server.ListenAndServe()` (main.go:118): it returns
`http.ErrServerClosed` after a graceful `Shutdown`, or some other error
(e.g. the listener failed to bind). -/
inductive ServeOutcome
  | closed
  | bindError
deriving DecidableEq

/-- Outcome of `server.Shutdown(shutdownCtx)` (main.go:131). -/
inductive ShutdownOutcome
  | clean
  | timedOut
deriving DecidableEq

/-- What a whole execution of `main` amounts to: the process exit status,
and whether the sampler goroutine (`go recordMetrics()`, main.go:113) was
ever started. -/
structure MainOutcome where
  exitCode : ℕ
  samplerStarted : Bool
deriving DecidableEq

/-- Execution of `main` (main.go:99-134) as a function of its three
fallible collaborators.  `flags.Parse` failure hits `os.Exit(1)`
(main.go:102) before `go recordMetrics()`; a `ListenAndServe` error other
than `ErrServerClosed` hits `log.Fatalf` (main.go:119), which exits with
status 1; a `Shutdown` error hits `log.Fatalf` (main.go:132); otherwise
`main` returns and the process exits 0. -/
def runMain : ParseResult → ServeOutcome → ShutdownOutcome → MainOutcome
  | ParseResult.fail, _, _ => ⟨1, false⟩
  | ParseResult.ok, ServeOutcome.bindError, _ => ⟨1, true⟩
  | ParseResult.ok, ServeOutcome.closed, ShutdownOutcome.timedOut => ⟨1, true⟩
  | ParseResult.ok, ServeOutcome.closed, ShutdownOutcome.clean => ⟨0, true⟩

/-! ### Registered gauges (main.go:21-47) and the `/metrics` body -/

/-- The fields of `prometheus.GaugeOpts` the code fills in
(main.go:22-46): namespace, name, help. -/
structure GaugeOpts where
  nspace : String
  name : String
  help : String
deriving DecidableEq

/-- `lastTemperatureGauge` options (main.go:22-26). -/
def lastTemperatureGaugeOpts : GaugeOpts :=
  ⟨"dht", "last_temperature", "Last measured temperature by DHT sensor"⟩

/-- `lastHumidityGauge` options (main.go:27-31). -/
def lastHumidityGaugeOpts : GaugeOpts :=
  ⟨"dht", "last_humidity", "Last measured humidity by DHT sensor"⟩

/-- `lastVaporPressureDeficitGauge` options (main.go:32-36). -/
def lastVaporPressureDeficitGaugeOpts : GaugeOpts :=
  ⟨"dht", "last_vapor_pressure_deficit", "Last vapor deficit value"⟩

/-- `last_successful_measurement_seconds` options (main.go:37-41). -/
def lastSuccessfulMeasurementSecondsOpts : GaugeOpts :=
  ⟨"dht", "last_successful_measurement_seconds",
    "Number of seconds that passed from the last successfully measurement"⟩

/-- `last_measurement_retries` options (main.go:42-46). -/
def lastMeasurementRetriesOpts : GaugeOpts :=
  ⟨"dht", "last_measurement_retries",
    "Number of retries by DHT sensor since it got values"⟩

/-- All gauges registered with `promauto` on the default registry served
by `promhttp.Handler()` at `/metrics` (main.go:21-47, 114). -/
def registeredGauges : List GaugeOpts :=
  [lastTemperatureGaugeOpts, lastHumidityGaugeOpts,
   lastVaporPressureDeficitGaugeOpts, lastSuccessfulMeasurementSecondsOpts,
   lastMeasurementRetriesOpts]

/-- Full exposition name of a gauge: Prometheus joins namespace and name
with an underscore. -/
def fullName (g : GaugeOpts) : String := g.nspace ++ "_" ++ g.name

/-- Body served on `GET /metrics`: each registered gauge paired with its
current value from the gauge state. -/
def metricsBody (g : GaugeState) : List (GaugeOpts × ℝ) :=
  [(lastTemperatureGaugeOpts, g.lastTemperature),
   (lastHumidityGaugeOpts, g.lastHumidity),
   (lastVaporPressureDeficitGaugeOpts, g.lastVaporPressureDeficit),
   (lastSuccessfulMeasurementSecondsOpts, g.lastSuccessfulMeasurementSeconds),
   (lastMeasurementRetriesOpts, g.lastMeasurementRetries)]

/-! ### Concrete scenario inputs -/

/-- Gauge state as previously published by a successful round: 23.5 °C,
60 %, VPD 0.87, retries 1 (the spec §8 scenario values). -/
noncomputable def priorGauges : GaugeState :=
  { lastTemperature := 23.5
    lastHumidity := 60
    lastVaporPressureDeficit := 0.87
    lastSuccessfulMeasurementSeconds := 0
    lastMeasurementRetries := 1 }

/-- Sampler state after that successful round, at Unix time 15. -/
noncomputable def priorState : SamplerState := ⟨priorGauges, 15⟩

/-- A failed sensor read: Go returns the zero values alongside the error. -/
noncomputable def failedRead : ReadResult := ⟨0, 0, 0, true⟩

/-- A successful sensor read with the spec §8 scenario values. -/
noncomputable def okRead : ReadResult := ⟨23.5, 60, 1, false⟩

/-- A sensor that fails on every round. -/
noncomputable def allFailReads : ℕ → ReadResult := fun _ => failedRead

/-- A wall clock ticking one second per round. -/
def tickTimes : ℕ → ℤ := fun n => (n : ℤ)

/-- Sensor results for the failed-round scenario: round 0 succeeds, every
later round fails. -/
noncomputable def c2Reads : ℕ → ReadResult
  | 0 => okRead
  | _ + 1 => failedRead

/-- Wall clock of the failed-round scenario: the loop starts at Unix time 0
and round `k` runs at time `15 * (k + 1)` (a 15 s interval). -/
def c2Times : ℕ → ℤ := fun n => 15 * ((n : ℤ) + 1)

/-- Initial sampler state: all gauges zero, `last_measurement_time` the
loop-entry instant, Unix time 0 (main.go:65). -/
noncomputable def c2Init : SamplerState := ⟨⟨0, 0, 0, 0, 0⟩, 0⟩

/-! ### Helper lemmas -/

/-- Saturation vapor pressure is strictly positive for every temperature:
a positive constant times an exponential. -/
theorem es_pos (t : ℝ) : 0 < es t := by
  unfold es
  positivity

/-- The implemented VPD factors as `es t * (1 - h / 100)`. -/
theorem vpd_factor (t h : ℝ) : vpd t h = es t * (1 - h / 100) := by
  unfold vpd ea
  ring

/-- A fold of `lifecycleStep` can only end in `ShuttingDown` if it started
there or some notified signal occurs in the event list. -/
theorem foldl_shuttingDown (evs : List Event) :
    ∀ p, evs.foldl lifecycleStep p = Phase.ShuttingDown →
      p = Phase.ShuttingDown ∨ ∃ s, s ∈ notifiedSignals ∧ Event.signal s ∈ evs := by
  induction evs with
  | nil => exact fun p h => Or.inl h
  | cons e rest ih =>
    intro p h
    rcases ih (lifecycleStep p e) h with h1 | ⟨s, hs, hmem⟩
    · cases p with
      | Starting => cases e <;> simp [lifecycleStep] at h1
      | Running =>
        cases e with
        | finishStartup => simp [lifecycleStep] at h1
        | drained => simp [lifecycleStep] at h1
        | signal s =>
          by_cases hs : s ∈ notifiedSignals
          · exact Or.inr ⟨s, hs, List.mem_cons_self _ _⟩
          · simp [lifecycleStep, hs] at h1
      | ShuttingDown => exact Or.inl rfl
      | Stopped => cases e <;> simp [lifecycleStep] at h1
    · exact Or.inr ⟨s, hs, List.mem_cons_of_mem _ hmem⟩

/-! ### Claim theorems -/

/-- C3: for every temperature `t` and humidity `h` with `0 ≤ h ≤ 100`, the
vapor pressure deficit the code computes from
`es = 0.6108 * exp(17.27*t/(t+237.3))` and `ea = (h/100) * es` is
nonnegative, and it is zero exactly when `h = 100`. -/
theorem c3_vpd_nonneg_zero_iff (t h : ℝ) (_h0 : 0 ≤ h) (h1 : h ≤ 100) :
    0 ≤ vpd t h ∧ (vpd t h = 0 ↔ h = 100) := by
  have hes := es_pos t
  rw [vpd_factor]
  refine ⟨mul_nonneg hes.le (by linarith), ?_⟩
  rw [mul_eq_zero]
  constructor
  · rintro (h2 | h2)
    · exact absurd h2 (ne_of_gt hes)
    · linarith
  · intro h2
    right
    rw [h2]
    norm_num

/-- Witness for C3 at `t = 23.5`, `h = 100`: hypotheses hold and the VPD
there is nonnegative and zero. -/
theorem c3_vpd_nonneg_zero_iff_witness :
    (0 : ℝ) ≤ 100 ∧ (100 : ℝ) ≤ 100 ∧
      (0 ≤ vpd 23.5 100 ∧ (vpd 23.5 100 = 0 ↔ (100 : ℝ) = 100)) :=
  ⟨by norm_num, by norm_num,
    c3_vpd_nonneg_zero_iff 23.5 100 (by norm_num) (by norm_num)⟩

/-- C4: the code's sign convention `vpd := (ea - es) * -1` (main.go:83)
agrees with the spec's formula `vpd = es - ea` at every temperature and
humidity: the published deficit is `es - ea`, not its negation. -/
theorem c4_vpd_refines_spec (t h : ℝ) : vpd t h = vpdSpec t h := by
  unfold vpd vpdSpec
  ring

/-- C10: the denominator `t + 237.3` of the saturation-vapor-pressure
exponent (main.go:79) is zero exactly at `t = -237.3`: the division in
`es` has a nonzero denominator for every other temperature, and the
zero-denominator branch is reached exactly at `-237.3`. -/
theorem c10_esDenom_zero_iff (t : ℝ) : esDenom t = 0 ↔ t = -237.3 := by
  unfold esDenom
  constructor <;> intro h <;> linarith

/-- C9: every iteration of the sampler loop, error rounds included, writes
all five gauges from whatever the read returned and resets
`last_measurement_time` to now. -/
theorem c9_step_writes_all_gauges (s : SamplerState) (r : ReadResult) (now : ℤ) :
    (recordMetricsStep s r now).gauges.lastTemperature = r.temperature ∧
    (recordMetricsStep s r now).gauges.lastHumidity = r.humidity ∧
    (recordMetricsStep s r now).gauges.lastMeasurementRetries = (r.retried : ℝ) ∧
    (recordMetricsStep s r now).gauges.lastVaporPressureDeficit
      = vpd r.temperature r.humidity ∧
    (recordMetricsStep s r now).gauges.lastSuccessfulMeasurementSeconds
      = ((now - s.lastMeasurementTime : ℤ) : ℝ) ∧
    (recordMetricsStep s r now).lastMeasurementTime = now :=
  ⟨rfl, rfl, rfl, rfl, rfl, rfl⟩

/-- C5: the sampler loop has no exit: a round whose read failed only logs
the error, still ends in the sleep of `opts.ReadSeconds`, produces a
successor state, and the run advances to round `n + 1` for every `n`. -/
theorem c5_loop_never_exits (interval : ℤ) (s : SamplerState) (r : ReadResult)
    (now : ℤ) (init : SamplerState) (reads : ℕ → ReadResult) (times : ℕ → ℤ)
    (n : ℕ) (hr : r.isError = true) :
    (recordMetricsRound interval s r now).errorLogged = true ∧
    (recordMetricsRound interval s r now).sleepSeconds = interval ∧
    (recordMetricsRound interval s r now).newState = recordMetricsStep s r now ∧
    recordMetricsRun init reads times (n + 1)
      = recordMetricsStep (recordMetricsRun init reads times n) (reads n) (times n) :=
  ⟨hr, rfl, rfl, rfl⟩

/-- Witness for C5: a concrete failed round with a 15 s interval, run from
a concrete state against an always-failing sensor. -/
theorem c5_loop_never_exits_witness :
    failedRead.isError = true ∧
    ((recordMetricsRound 15 priorState failedRead 20).errorLogged = true ∧
     (recordMetricsRound 15 priorState failedRead 20).sleepSeconds = 15 ∧
     (recordMetricsRound 15 priorState failedRead 20).newState
       = recordMetricsStep priorState failedRead 20 ∧
     recordMetricsRun priorState allFailReads tickTimes (0 + 1)
       = recordMetricsStep (recordMetricsRun priorState allFailReads tickTimes 0)
           (allFailReads 0) (tickTimes 0)) :=
  ⟨rfl, c5_loop_never_exits 15 priorState failedRead 20 priorState
    allFailReads tickTimes 0 rfl⟩

/-- C1 counterexample: with previously published temperature 23.5 °C, a
round whose read fails (returning zero values) drops the temperature gauge
to 0, strictly below the previously published value: the gauge state is
updated on a failed round. -/
theorem c1_counterexample :
    failedRead.isError = true ∧
    (recordMetricsStep priorState failedRead 20).gauges.lastTemperature
      < priorState.gauges.lastTemperature := by
  refine ⟨rfl, ?_⟩
  show (0 : ℝ) < 23.5
  norm_num

/-- C1 amended: in a round whose sensor read fails, the gauges for
temperature, humidity and retries ARE overwritten with the values returned
alongside the error, and the loop continues to the next round after the
sleep. -/
theorem c1_failed_round_overwrites (interval : ℤ) (s : SamplerState)
    (r : ReadResult) (now : ℤ) (_hr : r.isError = true) :
    (recordMetricsRound interval s r now).newState.gauges.lastTemperature
      = r.temperature ∧
    (recordMetricsRound interval s r now).newState.gauges.lastHumidity
      = r.humidity ∧
    (recordMetricsRound interval s r now).newState.gauges.lastMeasurementRetries
      = (r.retried : ℝ) ∧
    (recordMetricsRound interval s r now).sleepSeconds = interval :=
  ⟨rfl, rfl, rfl, rfl⟩

/-- Witness for C1 amended: the concrete failed round of the
counterexample scenario. -/
theorem c1_failed_round_overwrites_witness :
    failedRead.isError = true ∧
    ((recordMetricsRound 15 priorState failedRead 20).newState.gauges.lastTemperature
        = failedRead.temperature ∧
     (recordMetricsRound 15 priorState failedRead 20).newState.gauges.lastHumidity
        = failedRead.humidity ∧
     (recordMetricsRound 15 priorState failedRead 20).newState.gauges.lastMeasurementRetries
        = (failedRead.retried : ℝ) ∧
     (recordMetricsRound 15 priorState failedRead 20).sleepSeconds = 15) :=
  ⟨rfl, c1_failed_round_overwrites 15 priorState failedRead 20 rfl⟩

/-- C2 (code bug): in the scenario where round 0 succeeds at Unix time 15
and round 1 fails at time 30, the code still resets
`last_measurement_time` to 30 on the failed round and recomputes the
`last_successful_measurement_seconds` gauge to 15 — the seconds since the
previous round, not since the last success — contradicting the gauge's own
help string. -/
theorem c2_timestamp_reset_on_failure :
    (c2Reads 1).isError = true ∧
    (recordMetricsRun c2Init c2Reads c2Times 2).lastMeasurementTime = 30 ∧
    (recordMetricsRun c2Init c2Reads c2Times 2).gauges.lastSuccessfulMeasurementSeconds
      = 15 := by
  refine ⟨rfl, ?_, ?_⟩
  · show c2Times 1 = 30
    norm_num [c2Times]
  · show ((c2Times 1 - c2Times 0 : ℤ) : ℝ) = 15
    norm_num [c2Times]

/-- C6: a notified signal (SIGINT or SIGTERM) received while `Running`
moves the lifecycle to `ShuttingDown`, whose shutdown is bounded by the
10-second grace window, and no run from `Starting` reaches `ShuttingDown`
unless a notified signal occurred. -/
theorem c6_shutdown_only_on_signal :
    (∀ s, s ∈ notifiedSignals →
        lifecycleStep Phase.Running (Event.signal s) = Phase.ShuttingDown) ∧
    shutdownGraceSeconds = 10 ∧
    (∀ evs, lifecycleRun evs = Phase.ShuttingDown →
        ∃ s, s ∈ notifiedSignals ∧ Event.signal s ∈ evs) := by
  refine ⟨?_, rfl, ?_⟩
  · intro s hs
    simp [lifecycleStep, hs]
  · intro evs h
    rcases foldl_shuttingDown evs Phase.Starting h with h1 | h2
    · exact absurd h1 (by decide)
    · exact h2

/-- C7: `main` exits 0 on graceful shutdown; a configuration-parse failure
exits with status 1 before the sampler loop is started; a fatal server
error exits with status 1. -/
theorem c7_exit_codes :
    (∀ sv sd, (runMain ParseResult.fail sv sd).exitCode = 1 ∧
        (runMain ParseResult.fail sv sd).samplerStarted = false) ∧
    (∀ sd, (runMain ParseResult.ok ServeOutcome.bindError sd).exitCode = 1) ∧
    (runMain ParseResult.ok ServeOutcome.closed ShutdownOutcome.clean).exitCode = 0 :=
  ⟨fun _ _ => ⟨rfl, rfl⟩, fun _ => rfl, rfl⟩

/-- C8 counterexample: no registered gauge is named
`seconds_since_last_success` or `vapor_pressure_deficit`; the code
registers `last_successful_measurement_seconds` and
`last_vapor_pressure_deficit` instead. -/
theorem c8_counterexample :
    ((registeredGauges.map GaugeOpts.name).contains
        "seconds_since_last_success" = false) ∧
    ((registeredGauges.map GaugeOpts.name).contains
        "vapor_pressure_deficit" = false) := by
  constructor <;> decide

/-- C8 amended: the `/metrics` body lists exactly the five registered
gauges `last_temperature`, `last_humidity`, `last_vapor_pressure_deficit`,
`last_successful_measurement_seconds` and `last_measurement_retries`, each
under namespace `dht` (full name prefixed `dht_`), with a nonempty help
string and its current value from the gauge state. -/
theorem c8_metrics_body (g : GaugeState) :
    (metricsBody g).map (fun p => fullName p.1)
      = ["dht_last_temperature", "dht_last_humidity",
         "dht_last_vapor_pressure_deficit",
         "dht_last_successful_measurement_seconds",
         "dht_last_measurement_retries"] ∧
    (metricsBody g).map Prod.fst = registeredGauges ∧
    (∀ gO ∈ registeredGauges, gO.nspace = "dht" ∧ 0 < gO.help.length) ∧
    (metricsBody g).map Prod.snd
      = [g.lastTemperature, g.lastHumidity, g.lastVaporPressureDeficit,
         g.lastSuccessfulMeasurementSeconds, g.lastMeasurementRetries] :=
  ⟨rfl, rfl, by decide, rfl⟩

end DhtProm
